import Mathlib

/-!
Shallow embedding of `src/analyzer/reports/reports.py`: the report lifecycle
(counts, mutation score, dedup/invariant checking) and the four per-format
extraction algorithms (Judy JSON, Jumble structured text log, Major tabular
log pair, Pit XML).  Mutant factories live in `reports.mutants`, which is not
part of the sources; where a claim needs them they are modelled from the
spec's description and marked as such.
-/

deriving instance DecidableEq for Except

namespace Reports

/-- State of a `Report` object after construction (reports.py lines 83-92):
the class under mutation, the two optional mutant collections
(`killed_mutants` / `live_mutants`, `None` when the format does not retain
individual mutants) and the two optional precomputed scalar counts
(`_killed_mutants_count` / `_live_mutants_count`).  The scalar counts are
Python ints read from input artifacts, hence `Int`.  The mutant type `M`
is a parameter: report-level code only ever looks at a mutant's content
hash. -/
structure ReportState (M : Type) where
  class_under_mutation : String
  killed_mutants : Option (List M)
  live_mutants : Option (List M)
  killed_scalar : Option Int
  live_scalar : Option Int
deriving DecidableEq

/-- `MissingMutantCountException` (reports.py lines 34-38). -/
inductive CountError
  | missing
deriving DecidableEq

/-- `Report.killed_mutants_count` (reports.py lines 156-163): prefer the
collection length when the collection is present (`is not None`), else the
precomputed scalar, else raise `MissingMutantCountException`. -/
def killed_mutants_count {M : Type} (st : ReportState M) : Except CountError Int :=
  match st.killed_mutants with
  | some l => .ok (l.length : Int)
  | none =>
    match st.killed_scalar with
    | some n => .ok n
    | none => .error .missing

/-- `Report.live_mutants_count` (reports.py lines 165-172), same shape as
the killed count. -/
def live_mutants_count {M : Type} (st : ReportState M) : Except CountError Int :=
  match st.live_mutants with
  | some l => .ok (l.length : Int)
  | none =>
    match st.live_scalar with
    | some n => .ok n
    | none => .error .missing

/-- `Report.total_mutants_count` (reports.py lines 174-176): the sum of the
two count properties; a raised count exception propagates. -/
def total_mutants_count {M : Type} (st : ReportState M) : Except CountError Int := do
  let k ← killed_mutants_count st
  let l ← live_mutants_count st
  return k + l

/-- The mutation score computed in `Report.summary` (reports.py line 106):
`killed_mutants_count / total_mutants_count` as real-valued division,
modelled in `ℚ`.  (Python raises `ZeroDivisionError` when the total is 0;
the claims about the score only quantify over `total > 0`.) -/
def mutation_score {M : Type} (st : ReportState M) : Except CountError ℚ := do
  let k ← killed_mutants_count st
  let t ← total_mutants_count st
  return (k : ℚ) / (t : ℚ)

/-- `Report.find_overlapping_mutants` (reports.py lines 131-137): build a
`Counter` of the mutants' hash values, keep the hash values occurring more
than once, and return the mutants whose hash is among them.  (Python returns
a `set`; the filtered list below has the same membership.) -/
def find_overlapping_mutants {M : Type} (hash : M → Nat) (mutants : List M) : List M :=
  mutants.filter (fun m => 1 < (mutants.map hash).count (hash m))

/-- The exceptions `Report.sanity_check` can raise:
`OverlappingMutantsError(set_of_mutants)` (reports.py lines 41-45, 144, 149)
and the bare `ReportError` for an unset class under mutation (line 152). -/
inductive SanityError (M : Type)
  | overlapping (mutants : List M)
  | emptyClass
deriving DecidableEq

/-- `Report.sanity_check` (reports.py lines 139-154).  Python guards each
bucket with `if self.killed_mutants:`/`if self.live_mutants:`, which skips
both `None` and the empty list; since `find_overlapping_mutants` of `[]` is
`[]`, testing the overlap set of `getD []` for emptiness is equivalent.
The final guard `if not self.class_under_mutation` is the empty-string
test. -/
def sanity_check {M : Type} (hash : M → Nat) (st : ReportState M) :
    Except (SanityError M) Unit :=
  match find_overlapping_mutants hash (st.killed_mutants.getD []) with
  | m :: ms => .error (.overlapping (m :: ms))
  | [] =>
    match find_overlapping_mutants hash (st.live_mutants.getD []) with
    | m :: ms => .error (.overlapping (m :: ms))
    | [] =>
      if st.class_under_mutation = "" then .error .emptyClass
      else .ok ()

/-- Modelled from the spec: `JudyMutant` lives in `reports.mutants`, which is
not among the sources.  Per the spec's data model, a mutant carries the
identifying attributes taken from its source artifact entry plus the value of
the process-scoped counter that `reset_counter()` sets to zero at the start
of each extraction; the attributes of one `notKilledMutant` JSON entry are
abstracted to an identifier `fields : Nat`, since the report-level claims only
count these mutants and hash them. -/
structure JudyMutant where
  counterVal : Nat
  fields : Nat
deriving DecidableEq

/-- Modelled from the spec: the mutant content hash is a deterministic digest
of the identifying attributes with the counter mixed in, used as the dedup
key; collisions between genuinely distinct (attributes, counter) pairs are
treated as absent (the source relies on SHA-256 collision freedom), so the
digest is modelled as an injective pairing. -/
def judyHash (m : JudyMutant) : Nat := Nat.pair m.fields m.counterVal

/-- `JudyMutant.reset_counter()` followed by one `JudyMutant.from_dict` per
JSON entry (reports.py lines 277-281): the counter starts at the given value
and increments per constructed mutant; extraction calls this with counter 0. -/
def judyMutantsFromDicts : Nat → List Nat → List JudyMutant
  | _, [] => []
  | c, d :: ds => ⟨c, d⟩ :: judyMutantsFromDicts (c + 1) ds

/-- One entry of the top-level `classes` list of a Judy JSON document, with
the three keys `_extract_json` reads: `name`, `mutantsKilledCount` (a JSON
integer, unvalidated by the code, hence `Int`) and `notKilledMutant`. -/
structure JudyClass where
  name : String
  mutantsKilledCount : Int
  notKilledMutant : List Nat
deriving DecidableEq

/-- The three Judy extraction errors (reports.py lines 48-63):
`EmptyJudyReportError`, `MissingClassFromJudyReportError`,
`MultipleClassFromJudyReportError`. -/
inductive JudyError
  | emptyReport
  | missingClass (target : String)
  | multipleClass (target : String)
deriving DecidableEq

/-- `_extract_json` shared verbatim by `SingleJudyReport` (reports.py lines
252-284) and `MultipleJudyReport` (lines 302-331): error on an empty
`classes` list, filter by exact name match against the caller-supplied
target, error on zero or more than one match, and otherwise read the killed
scalar and build one live mutant per `notKilledMutant` entry after
`JudyMutant.reset_counter()`.  `g` is the value of the process-scoped mutant
counter when extraction starts; the reset discards it, so the counter the
mutants see starts at 0. -/
def judy_extract_json (g : Nat) (classes : List JudyClass) (target : String) :
    Except JudyError (Int × List JudyMutant) :=
  if classes.isEmpty then .error .emptyReport
  else
    match classes.filter (fun c => c.name == target) with
    | [] => .error (.missingClass target)
    | [c] =>
      let _ := g
      .ok (c.mutantsKilledCount, judyMutantsFromDicts 0 c.notKilledMutant)
    | _ :: _ :: _ => .error (.multipleClass target)

/-- Failure modes of `SingleFileReport.__init__` (reports.py lines 188-199):
any exception from `extract()` is replaced by the generic
`ReportError(ERR_EXTRACT)` (line 197), and `sanity_check` exceptions then
propagate unwrapped (line 199). -/
inductive ConstructError (M : Type)
  | extractFailed
  | sanity (e : SanityError M)
deriving DecidableEq

/-- Construction of a `SingleJudyReport` (reports.py lines 239-247 plus the
`SingleFileReport` lifecycle, lines 188-199) from the parsed JSON `classes`
list: the class under mutation is the caller-supplied target (set in
`__init__` before extraction), extraction fills the killed scalar and the
live list, and `sanity_check` runs last.  `g` is the incoming process
counter value. -/
def singleJudyConstruct (g : Nat) (classes : List JudyClass) (target : String) :
    Except (ConstructError JudyMutant) (ReportState JudyMutant) :=
  match judy_extract_json g classes target with
  | .error _ => .error .extractFailed
  | .ok (killed, live) =>
    let st : ReportState JudyMutant :=
      { class_under_mutation := target
        killed_mutants := none
        live_mutants := some live
        killed_scalar := some killed
        live_scalar := none }
    match sanity_check judyHash st with
    | .error e => .error (.sanity e)
    | .ok () => .ok st

/-- One successfully parsed row of the Major `mutants.log` table
(reports.py lines 428-439): the colon-delimited columns `MutantNo` (the
index), `Operator`, `From`, `To`, `Signature`, `LineNumber`, `Description`.
Rows the CSV reader rejects are skipped (`on_bad_lines='skip'`), so the
embedding takes the list of well-formed rows. -/
structure MajorRow where
  mutantNo : Int
  operator : String
  fromText : String
  toText : String
  signature : String
  lineNumber : Int
  description : String
deriving DecidableEq

/-- Modelled from the spec: `MajorMutant.from_series` lives in
`reports.mutants`, not among the sources; per the spec's data model it keeps
the row's identifying attributes, the joined `Status` value (absent when the
kill table has no entry for the row's mutant id) and the process counter
value assigned at construction. -/
structure MajorMutant where
  counterVal : Nat
  row : MajorRow
  status : Option String
deriving DecidableEq

/-- `MajorMutant.reset_counter()` followed by one `from_series` per joined
row (reports.py lines 454-460), threading the process counter from the given
start value. -/
def majorMutantsFromRows : Nat → List (MajorRow × Option String) → List MajorMutant
  | _, [] => []
  | n, (r, stat) :: rest => ⟨n, r, stat⟩ :: majorMutantsFromRows (n + 1) rest

/-- Class derivation from a signature (reports.py lines 461-462):
`signature.split("@")[0]` then `.split("$")[0]`.  For a single-character
separator, Python's `split(sep)[0]` is the prefix before the first
occurrence of the separator (the whole string when absent), i.e. a
`takeWhile`. -/
def majorClassOf (sig : String) : String :=
  String.mk ((sig.toList.takeWhile (fun c => !(c == '@'))).takeWhile (fun c => !(c == '$')))

/-- The pandas left join `mutants_df.join(kill_df)` on the `MutantNo` index
(reports.py line 447), per row: the `Status` of the first kill-table entry
with the row's mutant id, if any. -/
def lookupStatus (kill : List (Int × String)) (k : Int) : Option String :=
  (kill.find? (fun p => p.1 == k)).map Prod.snd

/-- Major extraction failures: `MultipleClassUnderMutationError` (reports.py
line 470) and the `KeyError` that `set(classes).pop()` raises on an empty
set (line 472). -/
inductive MajorError
  | multipleClasses
  | emptyClassSet
deriving DecidableEq

/-- Outcome of `MajorReport.extract`: the derived class under mutation and
the two mutant lists. -/
structure MajorResult where
  class_under_mutation : String
  killed_mutants : List MajorMutant
  live_mutants : List MajorMutant
deriving DecidableEq

/-- `MajorReport.extract` (reports.py lines 417-472) over the parsed tables:
`killTable` is the `kill.csv` body (mutant id, status), `rows` the
well-formed `mutants.log` rows.  When the kill table is empty the code
synthesizes an all-`"LIVE"` table whose index is the fresh `RangeIndex`
`0..M-1` (lines 442-445) — not the mutant ids of `rows` — and left-joins it;
each joined row becomes one mutant, classified live exactly when its joined
status is `"LIVE"`; the classes derived from all mutants must have at most
one distinct value, `set(classes).pop()` raising `KeyError` when there are
none. -/
def major_extract (killTable : List (Int × String)) (rows : List MajorRow) :
    Except MajorError MajorResult :=
  let kill := if killTable.isEmpty
    then (List.range rows.length).map (fun i => ((i : Int), "LIVE"))
    else killTable
  let joined := rows.map (fun r => (r, lookupStatus kill r.mutantNo))
  let mutants := majorMutantsFromRows 0 joined
  let classes := mutants.map (fun m => majorClassOf m.row.signature)
  let live := mutants.filter (fun m => m.status == some "LIVE")
  let killed := mutants.filter (fun m => m.status != some "LIVE")
  if 1 < classes.dedup.length then .error .multipleClasses
  else
    match classes.dedup with
    | [] => .error .emptyClassSet
    | c :: _ => .ok ⟨c, killed, live⟩

/-- A direct child element of a Pit XML document root, with the parts
`PitReport.extract` reads: its tag, and (for `mutation` elements) the
`detected` flag and the mutated-class value that `PitMutant.from_xml_element`
extracts. -/
structure XmlElement where
  tag : String
  detected : Bool
  mutatedClass : String
deriving DecidableEq

/-- Modelled from the spec: `PitMutant.from_xml_element` lives in
`reports.mutants`, not among the sources; per the spec each mutation element
yields one mutant carrying a `detected` boolean and a mutated-class field. -/
structure PitMutant where
  detected : Bool
  mutated_class : String
deriving DecidableEq

/-- Pit extraction failures: `WrongTagInPitReportError` (reports.py lines
78-80, 489-491), `MultipleClassUnderMutationError` (line 501) and the
`KeyError` from `set(classes).pop()` on an empty set (line 503). -/
inductive PitError
  | wrongTag (tag : String)
  | multipleClasses
  | emptyClassSet
deriving DecidableEq

/-- Outcome of `PitReport.extract`. -/
structure PitResult where
  class_under_mutation : String
  killed_mutants : List PitMutant
  live_mutants : List PitMutant
deriving DecidableEq

/-- The element loop of `PitReport.extract` (reports.py lines 488-498): in
document order, fail on the first child whose tag is not `mutation`,
otherwise build its mutant, record its mutated class, and bucket it as
killed when `detected` and live otherwise. -/
def pitScan : List XmlElement → Except PitError (List PitMutant × List PitMutant × List String)
  | [] => .ok ([], [], [])
  | e :: es =>
    if e.tag ≠ "mutation" then .error (.wrongTag e.tag)
    else
      match pitScan es with
      | .error err => .error err
      | .ok (k, l, cs) =>
        let m : PitMutant := ⟨e.detected, e.mutatedClass⟩
        if e.detected then .ok (m :: k, l, e.mutatedClass :: cs)
        else .ok (k, m :: l, e.mutatedClass :: cs)

/-- `PitReport.extract` (reports.py lines 479-503): scan the root's children,
then require at most one distinct mutated class, `set(classes).pop()`
raising `KeyError` when no classes were collected. -/
def pit_extract (elements : List XmlElement) : Except PitError PitResult :=
  match pitScan elements with
  | .error err => .error err
  | .ok (killed, live, classes) =>
    if 1 < classes.dedup.length then .error .multipleClasses
    else
      match classes.dedup with
      | [] => .error .emptyClassSet
      | c :: _ => .ok ⟨c, killed, live⟩

/-- Truncation to a 32-bit word. -/
def u32 (x : Nat) : Nat := x % 4294967296

/-- 32-bit left rotation (operand assumed `< 2^32`). -/
def rotl32 (c x : Nat) : Nat := u32 (x <<< c) ||| (x >>> (32 - c))

/-- The MD5 sine-derived constant table `T[1..64]` of RFC 1321. -/
def md5K : List Nat :=
  [0xd76aa478, 0xe8c7b756, 0x242070db, 0xc1bdceee,
   0xf57c0faf, 0x4787c62a, 0xa8304613, 0xfd469501,
   0x698098d8, 0x8b44f7af, 0xffff5bb1, 0x895cd7be,
   0x6b901122, 0xfd987193, 0xa679438e, 0x49b40821,
   0xf61e2562, 0xc040b340, 0x265e5a51, 0xe9b6c7aa,
   0xd62f105d, 0x02441453, 0xd8a1e681, 0xe7d3fbc8,
   0x21e1cde6, 0xc33707d6, 0xf4d50d87, 0x455a14ed,
   0xa9e3e905, 0xfcefa3f8, 0x676f02d9, 0x8d2a4c8a,
   0xfffa3942, 0x8771f681, 0x6d9d6122, 0xfde5380c,
   0xa4beea44, 0x4bdecfa9, 0xf6bb4b60, 0xbebfbc70,
   0x289b7ec6, 0xeaa127fa, 0xd4ef3085, 0x04881d05,
   0xd9d4d039, 0xe6db99e5, 0x1fa27cf8, 0xc4ac5665,
   0xf4292244, 0x432aff97, 0xab9423a7, 0xfc93a039,
   0x655b59c3, 0x8f0ccc92, 0xffeff47d, 0x85845dd1,
   0x6fa87e4f, 0xfe2ce6e0, 0xa3014314, 0x4e0811a1,
   0xf7537e82, 0xbd3af235, 0x2ad7d2bb, 0xeb86d391]

/-- The MD5 per-operation left-rotation amounts. -/
def md5S : List Nat :=
  [7, 12, 17, 22, 7, 12, 17, 22, 7, 12, 17, 22, 7, 12, 17, 22,
   5, 9, 14, 20, 5, 9, 14, 20, 5, 9, 14, 20, 5, 9, 14, 20,
   4, 11, 16, 23, 4, 11, 16, 23, 4, 11, 16, 23, 4, 11, 16, 23,
   6, 10, 15, 21, 6, 10, 15, 21, 6, 10, 15, 21, 6, 10, 15, 21]

/-- `x` as `k` little-endian bytes. -/
def leBytes : Nat → Nat → List Nat
  | 0, _ => []
  | k + 1, x => (x % 256) :: leBytes k (x / 256)

/-- MD5 padding: append `0x80`, zero-pad to 56 mod 64 bytes, append the
original bit length as 8 little-endian bytes. -/
def md5Pad (msg : List Nat) : List Nat :=
  msg ++ [0x80] ++ List.replicate ((119 - (msg.length % 64)) % 64) 0
    ++ leBytes 8 (8 * msg.length)

/-- A 64-byte block as 16 little-endian 32-bit words. -/
def toWords32 : List Nat → List Nat
  | b0 :: b1 :: b2 :: b3 :: rest =>
    (b0 + 256 * b1 + 65536 * b2 + 16777216 * b3) :: toWords32 rest
  | _ => []

/-- One of the 64 MD5 operations on state `(a, b, c, d)` for block words
`w` at operation index `i`. -/
def md5Step (w : List Nat) (st : Nat × Nat × Nat × Nat) (i : Nat) :
    Nat × Nat × Nat × Nat :=
  let (a, b, c, d) := st
  let f :=
    if i < 16 then (b &&& c) ||| ((b ^^^ 0xffffffff) &&& d)
    else if i < 32 then (d &&& b) ||| ((d ^^^ 0xffffffff) &&& c)
    else if i < 48 then b ^^^ c ^^^ d
    else c ^^^ (b ||| (d ^^^ 0xffffffff))
  let g :=
    if i < 16 then i
    else if i < 32 then (5 * i + 1) % 16
    else if i < 48 then (3 * i + 5) % 16
    else (7 * i) % 16
  let tmp := u32 (f + a + md5K.getD i 0 + w.getD g 0)
  (d, u32 (b + rotl32 (md5S.getD i 0) tmp), b, c)

/-- Fold the MD5 compression function over the padded message, one 64-byte
chunk at a time.  The first argument is structural-recursion fuel; every
step consumes a nonempty chunk, so any fuel of at least the byte count
(as passed by `md5Bytes`) never runs out. -/
def md5Chunks : Nat → Nat × Nat × Nat × Nat → List Nat → Nat × Nat × Nat × Nat
  | _, st, [] => st
  | 0, st, _ :: _ => st
  | fuel + 1, st, b :: rest =>
    let w := toWords32 ((b :: rest).take 64)
    let (a0, b0, c0, d0) := st
    let (a, b1, c, d) := (List.range 64).foldl (md5Step w) st
    md5Chunks fuel (u32 (a0 + a), u32 (b0 + b1), u32 (c0 + c), u32 (d0 + d))
      ((b :: rest).drop 64)

/-- The 16 MD5 digest bytes of a byte sequence. -/
def md5Bytes (msg : List Nat) : List Nat :=
  let padded := md5Pad msg
  let (a, b, c, d) :=
    md5Chunks padded.length (0x67452301, 0xefcdab89, 0x98badcfe, 0x10325476) padded
  leBytes 4 a ++ leBytes 4 b ++ leBytes 4 c ++ leBytes 4 d

/-- A nibble as a lowercase hex character. -/
def hexDigit (n : Nat) : Char :=
  if n < 10 then Char.ofNat (48 + n) else Char.ofNat (87 + n)

/-- `hashlib.md5(content).hexdigest()`: the 32-character lowercase hex
digest. -/
def md5Hex (msg : List Nat) : String :=
  String.mk ((md5Bytes msg).flatMap (fun b => [hexDigit (b / 16), hexDigit (b % 16)]))

/-- `MultipleFilesReport.__init__` line 218:
`content = b"\n".join(open(fp, "rb").read() for fp in self.filepaths)` —
the artifact byte contents joined with a single `0x0a` byte between
consecutive artifacts, in caller argument order. -/
def newlineJoin (contents : List (List Nat)) : List Nat :=
  List.intercalate [10] contents

/-- The content hash of a `MultipleFilesReport` (reports.py lines 213-219,
227-228): the MD5 hex digest of the newline-joined artifact bytes. -/
def multipleFilesHashString (contents : List (List Nat)) : String :=
  md5Hex (newlineJoin contents)

/-- The content hash of a `SingleFileReport` (reports.py lines 192-193,
201-202): the MD5 hex digest of the file's bytes. -/
def singleFileHashString (content : List Nat) : String :=
  md5Hex content

/-- Python's `\s` over the ASCII range: space, tab, newline, carriage
return, vertical tab, form feed. -/
def isPyWS (c : Char) : Bool :=
  c == ' ' || c == '\t' || c == '\n' || c == '\r' || c == '\x0b' || c == '\x0c'

/-- Python's `\w` over the ASCII range. -/
def isWordChar (c : Char) : Bool := c.isAlphanum || c == '_'

/-- The character class `[a-zA-Z.]` of the Jumble fail pattern. -/
def isClassChar (c : Char) : Bool := c.isAlpha || c == '.'

/-- Match a literal character sequence at the head of `s`; the remaining
suffix on success. -/
def matchLit : List Char → List Char → Option (List Char)
  | [], s => some s
  | _ :: _, [] => none
  | p :: ps, c :: cs => if p == c then matchLit ps cs else none

/-- Backtracking for a trailing `\s*(.+)`: among start offsets `k` of at
most the whitespace-run length (so that `\s*` can match what precedes `k`),
the largest one at which a character follows and it is not a newline (`.`
matches every character except `\n`). -/
def backtrackStart (s : List Char) : Nat → Option Nat
  | 0 =>
    match s with
    | c :: _ => if c == '\n' then none else some 0
    | [] => none
  | k + 1 =>
    match s.drop (k + 1) with
    | c :: _ => if c == '\n' then backtrackStart s k else some (k + 1)
    | [] => backtrackStart s k

/-- `\s*(.+)` at the head of `s`: the capture (the rest of the line from the
chosen start) and the number of characters consumed. -/
def matchWsDotPlus (s : List Char) : Option (List Char × Nat) :=
  match backtrackStart s (s.takeWhile isPyWS).length with
  | none => none
  | some k =>
    let g := (s.drop k).takeWhile (fun c => !(c == '\n'))
    some (g, k + g.length)

/-- `fail_pattern = r"M FAIL:\s*([a-zA-Z.]+):(\d+):\s*(.+)"` (reports.py
line 374) matched at the head of `s`: the three captures and the number of
characters consumed.  The leading `\s*` and the two `+`-classes need no
backtracking because each is followed by a character it cannot match; the
final `\s*(.+)` backtracks via `matchWsDotPlus`. -/
def matchFailAt (s : List Char) :
    Option ((List Char × List Char × List Char) × Nat) :=
  match matchLit ("M FAIL:".toList) s with
  | none => none
  | some s1 =>
    let s2 := s1.dropWhile isPyWS
    let g1 := s2.takeWhile isClassChar
    if g1.isEmpty then none else
    match matchLit [':'] (s2.drop g1.length) with
    | none => none
    | some s4 =>
      let g2 := s4.takeWhile Char.isDigit
      if g2.isEmpty then none else
      match matchLit [':'] (s4.drop g2.length) with
      | none => none
      | some s6 =>
        match matchWsDotPlus s6 with
        | none => none
        | some (g3, n6) => some ((g1, g2, g3), s.length - s6.length + n6)

/-- The non-overlapping left-to-right scan shared by
`fail_pattern.subn("", text)` and `fail_pattern.findall(text)` (reports.py
lines 393 and 399): at each position try the fail pattern; on a match drop
the matched characters and record the captures, otherwise keep one character
and move on.  Returns the text with the matches removed and the captures in
order.  The first argument is structural-recursion fuel; every match
consumes at least one character, so fuel of at least the text length (as
passed by `jumble_extract`) never runs out. -/
def scanFails : Nat → List Char →
    List Char × List (List Char × List Char × List Char)
  | _, [] => ([], [])
  | 0, l => (l, [])
  | fuel + 1, c :: cs =>
    match matchFailAt (c :: cs) with
    | some (caps, n) =>
      let res := scanFails fuel (cs.drop (n - 1))
      (res.1, caps :: res.2)
    | none =>
      let res := scanFails fuel cs
      (c :: res.1, res.2)

/-- `re.search`: try the matcher at offset 0, 1, … (including the
end-of-string position) and return the first hit with its offset. -/
def searchPos {a : Type} (m : List Char → Option a) : List Char → Option (Nat × a)
  | [] =>
    match m [] with
    | some r => some (0, r)
    | none => none
  | c :: cs =>
    match m (c :: cs) with
    | some r => some (0, r)
    | none =>
      match searchPos m cs with
      | some (i, r) => some (i + 1, r)
      | none => none

/-- `class_pattern = r"Mutating (.+)"` (reports.py line 371) at the head of
`s`: the capture, the rest of the line (at least one character, none of
them a newline). -/
def matchMutatingAt (s : List Char) : Option (List Char) :=
  match matchLit ("Mutating ".toList) s with
  | none => none
  | some s1 =>
    let g := s1.takeWhile (fun c => !(c == '\n'))
    if g.isEmpty then none else some g

/-- `\d+\.\d+s` at the head of `s`: the remaining suffix. -/
def matchDecimalS (s : List Char) : Option (List Char) :=
  let d1 := s.takeWhile Char.isDigit
  if d1.isEmpty then none else
  match matchLit ['.'] (s.drop d1.length) with
  | none => none
  | some s2 =>
    let d2 := s2.takeWhile Char.isDigit
    if d2.isEmpty then none else
    matchLit ['s'] (s2.drop d2.length)

/-- `start_pattern = r"Mutation points = \d+, unit test time limit \d+\.\d+s"`
(reports.py lines 375-377) at the head of `s`: the number of characters
consumed (so that offset + consumed is the match's `end()`). -/
def matchStartAt (s : List Char) : Option Nat :=
  match matchLit ("Mutation points = ".toList) s with
  | none => none
  | some s1 =>
    let d := s1.takeWhile Char.isDigit
    if d.isEmpty then none else
    match matchLit (", unit test time limit ".toList) (s1.drop d.length) with
    | none => none
    | some s2 =>
      match matchDecimalS s2 with
      | none => none
      | some s3 => some (s.length - s3.length)

/-- `end_pattern = r"Jumbling took \d+\.\d+s"` (reports.py line 378) at the
head of `s`: the number of characters consumed. -/
def matchEndAt (s : List Char) : Option Nat :=
  match matchLit ("Jumbling took ".toList) s with
  | none => none
  | some s1 =>
    match matchDecimalS s1 with
    | none => none
    | some s2 => some (s.length - s2.length)

/-- `error_pattern = r"Score: \d+%\s*\(?([\w ]+)?"` (reports.py line 379) at
the head of `s`: `none` when the pattern does not match here, otherwise the
optional group-1 capture (`none` inside when the group matched nothing —
Python's `group(1) is None`).  Everything after `%` is optional, so the
greedy left-to-right interpretation needs no backtracking. -/
def matchScoreAt (s : List Char) : Option (Option (List Char)) :=
  match matchLit ("Score: ".toList) s with
  | none => none
  | some s1 =>
    let d := s1.takeWhile Char.isDigit
    if d.isEmpty then none else
    match matchLit ['%'] (s1.drop d.length) with
    | none => none
    | some s2 =>
      let s3 := s2.dropWhile isPyWS
      let s4 :=
        match s3 with
        | '(' :: t => t
        | _ => s3
      let g := s4.takeWhile (fun c => isWordChar c || c == ' ')
      some (if g.isEmpty then none else some g)

/-- Modelled from the spec: `JumbleMutant` lives in `reports.mutants`, not
among the sources; per the spec's data model it carries the fail line's
captures (file, line, message) and the process counter value assigned at
construction. -/
structure JumbleMutant where
  counterVal : Nat
  file : List Char
  line : List Char
  msg : List Char
deriving DecidableEq

/-- `JumbleMutant.reset_counter()` followed by one `from_tuple` per
`findall` capture (reports.py lines 396-400), threading the process counter
from the given start value. -/
def jumbleMutantsFromTuples :
    Nat → List (List Char × List Char × List Char) → List JumbleMutant
  | _, [] => []
  | n, (f, ln, m) :: rest => ⟨n, f, ln, m⟩ :: jumbleMutantsFromTuples (n + 1) rest

/-- Jumble extraction failures: an `AttributeError` from a failed `search`
(wrapped into `ReportError` by the constructor), `JumbleReportError(errmsg)`
for a score-line error annotation (reports.py lines 382-384), and the
`assert` on line 401. -/
inductive JumbleError
  | malformed
  | toolError (msg : List Char)
  | assertFailed
deriving DecidableEq

/-- Outcome of `JumbleReport.extract`: the class under mutation, the killed
scalar count and the live mutants. -/
structure JumbleResult where
  class_under_mutation : List Char
  killed_count : Nat
  live_mutants : List JumbleMutant
deriving DecidableEq

/-- `JumbleReport.extract` (reports.py lines 368-401): find the
`Mutating <name>` marker, fail on a score-line error annotation, slice the
bounded region between the start marker's end and the end marker's start,
remove the fail-line matches from it (their count is the live-mutant count,
their captures become the live mutants after a counter reset), count the
remaining non-whitespace characters as the killed count, and check the
derived live count against the number of live mutants constructed. -/
def jumble_extract (content : List Char) : Except JumbleError JumbleResult :=
  match searchPos matchMutatingAt content with
  | none => .error .malformed
  | some (_, cls) =>
    match searchPos matchScoreAt content with
    | none => .error .malformed
    | some (_, some msg) => .error (.toolError msg)
    | some (_, none) =>
      match searchPos matchStartAt content with
      | none => .error .malformed
      | some (ps, ns) =>
        let i := ps + ns
        match searchPos matchEndAt (content.drop i) with
        | none => .error .malformed
        | some (pj, _) =>
          let text := (content.drop i).take pj
          let scanned := scanFails text.length text
          let killedCount := (scanned.1.filter (fun c => !(isPyWS c))).length
          let live := jumbleMutantsFromTuples 0 scanned.2
          if live.length ≠ scanned.2.length then .error .assertFailed
          else .ok ⟨cls, killedCount, live⟩

end Reports

namespace Reports

/-! ## Helper lemmas -/

theorem ok_bind {e a b : Type} (x : a) (f : a → Except e b) :
    (Except.ok x : Except e a) >>= f = f x := rfl

theorem pure_eq_ok {e a : Type} (x : a) : (pure x : Except e a) = Except.ok x := rfl

theorem mem_find_overlapping {M : Type} (hash : M → Nat) (l : List M) (m : M) :
    m ∈ find_overlapping_mutants hash l ↔
      m ∈ l ∧ 1 < (l.map hash).count (hash m) := by
  simp [find_overlapping_mutants, List.mem_filter]

theorem find_overlapping_nil_iff {M : Type} (hash : M → Nat) (l : List M) :
    find_overlapping_mutants hash l = [] ↔ (l.map hash).Nodup := by
  rw [find_overlapping_mutants, List.filter_eq_nil_iff, List.nodup_iff_count_le_one]
  constructor
  · intro h x
    by_cases hx : x ∈ l.map hash
    · obtain ⟨m, hm, rfl⟩ := List.mem_map.mp hx
      have := h m hm
      simp only [decide_eq_true_eq] at this
      omega
    · simp [List.count_eq_zero.mpr hx]
  · intro h m hm
    simp only [decide_eq_true_eq]
    have := h (hash m)
    omega

theorem sanity_check_killed_err {M : Type} (hash : M → Nat) (st : ReportState M)
    (m : M) (ms : List M)
    (h : find_overlapping_mutants hash (st.killed_mutants.getD []) = m :: ms) :
    sanity_check hash st = .error (.overlapping (m :: ms)) := by
  unfold sanity_check
  rw [h]

theorem sanity_check_live_err {M : Type} (hash : M → Nat) (st : ReportState M)
    (m : M) (ms : List M)
    (h1 : find_overlapping_mutants hash (st.killed_mutants.getD []) = [])
    (h2 : find_overlapping_mutants hash (st.live_mutants.getD []) = m :: ms) :
    sanity_check hash st = .error (.overlapping (m :: ms)) := by
  unfold sanity_check
  rw [h1, h2]

end Reports

namespace Reports

theorem sanity_check_ok_iff {M : Type} (hash : M → Nat) (st : ReportState M) :
    sanity_check hash st = .ok () ↔
      find_overlapping_mutants hash (st.killed_mutants.getD []) = [] ∧
      find_overlapping_mutants hash (st.live_mutants.getD []) = [] ∧
      st.class_under_mutation ≠ "" := by
  unfold sanity_check
  rcases h1 : find_overlapping_mutants hash (st.killed_mutants.getD []) with _ | ⟨m, ms⟩
  · rcases h2 : find_overlapping_mutants hash (st.live_mutants.getD []) with _ | ⟨m, ms⟩
    · by_cases hc : st.class_under_mutation = "" <;> simp [hc]
    · simp
  · simp

end Reports

namespace Reports

/-! ## Claim theorems -/

/-- Claim C3: for every report, the killed-count and live-count queries
return the length of the corresponding mutant collection when that
collection is present, otherwise the precomputed scalar count, and they
raise the count-unavailable error exactly when neither the collection nor
the scalar is present. -/
theorem count_queries_spec {M : Type} (st : ReportState M) :
    (∀ l, st.killed_mutants = some l →
      killed_mutants_count st = .ok (l.length : Int)) ∧
    (∀ n, st.killed_mutants = none → st.killed_scalar = some n →
      killed_mutants_count st = .ok n) ∧
    (killed_mutants_count st = .error .missing ↔
      st.killed_mutants = none ∧ st.killed_scalar = none) ∧
    (∀ l, st.live_mutants = some l →
      live_mutants_count st = .ok (l.length : Int)) ∧
    (∀ n, st.live_mutants = none → st.live_scalar = some n →
      live_mutants_count st = .ok n) ∧
    (live_mutants_count st = .error .missing ↔
      st.live_mutants = none ∧ st.live_scalar = none) := by
  unfold killed_mutants_count live_mutants_count
  rcases st with ⟨cls, k, lv, ks, ls⟩
  refine ⟨?_, ?_, ?_, ?_, ?_, ?_⟩ <;>
    cases k <;> cases lv <;> cases ks <;> cases ls <;> simp

/-- Witness for C3 at a concrete report state: scalar fallback for the
killed count, missing-count error for the live count. -/
theorem count_queries_spec_witness :
    killed_mutants_count (M := Unit) ⟨"C", none, none, some 7, none⟩ = .ok 7 ∧
    live_mutants_count (M := Unit) ⟨"C", none, none, some 7, none⟩ =
      .error .missing := by
  have h := count_queries_spec (M := Unit) ⟨"C", none, none, some 7, none⟩
  exact ⟨h.2.1 7 rfl rfl, h.2.2.2.2.2.mpr ⟨rfl, rfl⟩⟩

/-- Claim C2: when the invariant check passes, no two mutants of the killed
bucket share a content hash and no two mutants of the live bucket share a
content hash; when a bucket does contain a same-bucket collision, the check
fails with the dedup error whose payload holds exactly the colliding
mutants of that bucket (all mutants whose hash occurs more than once in
it), the killed bucket being checked first. -/
theorem sanity_check_dedup_spec {M : Type} (hash : M → Nat) (st : ReportState M) :
    (sanity_check hash st = .ok () →
      ((st.killed_mutants.getD []).map hash).Nodup ∧
      ((st.live_mutants.getD []).map hash).Nodup) ∧
    (¬ ((st.killed_mutants.getD []).map hash).Nodup →
      sanity_check hash st =
        .error (.overlapping
          (find_overlapping_mutants hash (st.killed_mutants.getD []))) ∧
      ∀ m, m ∈ find_overlapping_mutants hash (st.killed_mutants.getD []) ↔
        m ∈ st.killed_mutants.getD [] ∧
          1 < ((st.killed_mutants.getD []).map hash).count (hash m)) ∧
    (((st.killed_mutants.getD []).map hash).Nodup →
      ¬ ((st.live_mutants.getD []).map hash).Nodup →
      sanity_check hash st =
        .error (.overlapping
          (find_overlapping_mutants hash (st.live_mutants.getD []))) ∧
      ∀ m, m ∈ find_overlapping_mutants hash (st.live_mutants.getD []) ↔
        m ∈ st.live_mutants.getD [] ∧
          1 < ((st.live_mutants.getD []).map hash).count (hash m)) := by
  refine ⟨?_, ?_, ?_⟩
  · intro hok
    rw [sanity_check_ok_iff] at hok
    exact ⟨(find_overlapping_nil_iff hash _).mp hok.1,
      (find_overlapping_nil_iff hash _).mp hok.2.1⟩
  · intro hdup
    have hne : find_overlapping_mutants hash (st.killed_mutants.getD []) ≠ [] := by
      intro h
      exact hdup ((find_overlapping_nil_iff hash _).mp h)
    rcases h : find_overlapping_mutants hash (st.killed_mutants.getD []) with _ | ⟨m, ms⟩
    · exact absurd h hne
    · refine ⟨sanity_check_killed_err hash st m ms h, ?_⟩
      intro x
      rw [← h]
      exact mem_find_overlapping hash _ x
  · intro hnd hdup
    have h1 : find_overlapping_mutants hash (st.killed_mutants.getD []) = [] :=
      (find_overlapping_nil_iff hash _).mpr hnd
    have hne : find_overlapping_mutants hash (st.live_mutants.getD []) ≠ [] := by
      intro h
      exact hdup ((find_overlapping_nil_iff hash _).mp h)
    rcases h : find_overlapping_mutants hash (st.live_mutants.getD []) with _ | ⟨m, ms⟩
    · exact absurd h hne
    · refine ⟨sanity_check_live_err hash st m ms h1 h, ?_⟩
      intro x
      rw [← h]
      exact mem_find_overlapping hash _ x

/-- Witness for C2 at concrete buckets: a passing check with distinct
hashes, and a failing check whose payload is exactly the two colliding
live mutants. -/
theorem sanity_check_dedup_spec_witness :
    sanity_check (M := Nat) id ⟨"C", some [1, 2], some [5], none, none⟩ = .ok () ∧
    sanity_check (M := Nat) id ⟨"C", some [1, 2], some [7, 7], none, none⟩ =
      .error (.overlapping [7, 7]) := by
  have h1 := sanity_check_dedup_spec (M := Nat) id ⟨"C", some [1, 2], some [5], none, none⟩
  have h2 := sanity_check_dedup_spec (M := Nat) id ⟨"C", some [1, 2], some [7, 7], none, none⟩
  refine ⟨?_, ?_⟩
  · decide
  · have := (h2.2.2 (by decide) (by decide)).1
    simpa using this

end Reports

namespace Reports

/-- Claim C1 (amended): for every report whose killed and live counts are
available, killed + live equals total — with no further proviso; and
whenever total is positive and both counts are nonnegative — always the
case when they come from collection lengths, but the precomputed scalars
are unvalidated input values — the mutation score lies between 0 and 1
inclusive. -/
theorem counts_sum_and_score_bounds {M : Type} (st : ReportState M) (k l : Int)
    (hk : killed_mutants_count st = .ok k) (hl : live_mutants_count st = .ok l) :
    total_mutants_count st = .ok (k + l) ∧
    (0 ≤ k → 0 ≤ l → 0 < k + l →
      mutation_score st = .ok ((k : ℚ) / ((k + l : Int) : ℚ)) ∧
      0 ≤ (k : ℚ) / ((k + l : Int) : ℚ) ∧
      (k : ℚ) / ((k + l : Int) : ℚ) ≤ 1) := by
  have ht : total_mutants_count st = .ok (k + l) := by
    unfold total_mutants_count
    rw [hk, ok_bind, hl, ok_bind, pure_eq_ok]
  refine ⟨ht, fun hk0 hl0 hpos => ?_⟩
  have hden : (0 : ℚ) < ((k + l : Int) : ℚ) := by
    exact_mod_cast hpos
  refine ⟨?_, ?_, ?_⟩
  · unfold mutation_score
    rw [hk, ok_bind, ht, ok_bind, pure_eq_ok]
  · exact div_nonneg (by exact_mod_cast hk0) (le_of_lt hden)
  · rw [div_le_one hden]
    exact_mod_cast Int.le_add_of_nonneg_right hl0

/-- Witness for the amended C1 at concrete states: killed scalar 2, one
live mutant, total 3 and score 2/3 in bounds; and the sum conjunct alone at
a zero-total report (killed scalar 0, no live entries) and at the
counterexample's negative-scalar report, where the score hypotheses fail. -/
theorem counts_sum_and_score_bounds_witness :
    total_mutants_count (M := Unit) ⟨"C", none, some [()], some 2, none⟩ = .ok 3 ∧
    0 ≤ ((2 : Int) : ℚ) / (((2 : Int) + 1 : Int) : ℚ) ∧
    ((2 : Int) : ℚ) / (((2 : Int) + 1 : Int) : ℚ) ≤ 1 ∧
    total_mutants_count (M := Unit) ⟨"C", none, some [], some 0, none⟩ = .ok 0 ∧
    total_mutants_count (M := JudyMutant)
      ⟨"C", none, some [⟨0, 0⟩, ⟨1, 1⟩], some (-1), none⟩ = .ok 1 := by
  have h := counts_sum_and_score_bounds (M := Unit) ⟨"C", none, some [()], some 2, none⟩
    2 1 rfl rfl
  have hs := h.2 (by decide) (by decide) (by decide)
  have h0 := counts_sum_and_score_bounds (M := Unit) ⟨"C", none, some [], some 0, none⟩
    0 0 rfl rfl
  have hneg := counts_sum_and_score_bounds (M := JudyMutant)
    ⟨"C", none, some [⟨0, 0⟩, ⟨1, 1⟩], some (-1), none⟩ (-1) 2 rfl rfl
  exact ⟨by rw [h.1]; norm_num, hs.2.1, hs.2.2,
    by rw [h0.1]; norm_num, by rw [hneg.1]; norm_num⟩

/-- Counterexample to C1 as stated: a Judy JSON document whose single
matching class carries the unvalidated killed scalar -1 and two not-killed
entries constructs successfully (the invariant check only inspects hashes
and the class name), its total count is 1 > 0, yet its mutation score is
-1, outside [0, 1]. -/
theorem mutation_score_negative_cex :
    singleJudyConstruct 0 [⟨"C", -1, [0, 1]⟩] "C" =
      .ok ⟨"C", none, some [⟨0, 0⟩, ⟨1, 1⟩], some (-1), none⟩ ∧
    total_mutants_count (M := JudyMutant)
      ⟨"C", none, some [⟨0, 0⟩, ⟨1, 1⟩], some (-1), none⟩ = .ok 1 ∧
    mutation_score (M := JudyMutant)
      ⟨"C", none, some [⟨0, 0⟩, ⟨1, 1⟩], some (-1), none⟩ = .ok (-1) ∧
    ¬ (0 ≤ (-1 : ℚ)) := by
  refine ⟨by decide, by decide, ?_, by norm_num⟩
  simp [mutation_score, killed_mutants_count, live_mutants_count,
    total_mutants_count, ok_bind, pure_eq_ok, Except.ok.injEq]

theorem judyMutantsFromDicts_length (c : Nat) (ds : List Nat) :
    (judyMutantsFromDicts c ds).length = ds.length := by
  induction ds generalizing c with
  | nil => rfl
  | cons d ds ih => simp [judyMutantsFromDicts, ih]

theorem judyMutantsFromDicts_counters (c : Nat) (ds : List Nat) :
    (judyMutantsFromDicts c ds).map JudyMutant.counterVal =
      List.range' c ds.length := by
  induction ds generalizing c with
  | nil => rfl
  | cons d ds ih => simp [judyMutantsFromDicts, List.range'_succ, ih]

end Reports

namespace Reports

/-- Claim C4: for every Judy extraction (the identical JSON pass of the
single and combined reports) over a parsed document and a target class
name: an empty class list fails with the distinguished empty-report error;
a non-empty list with no exact name match fails with the class-missing
error; more than one match fails with the multiple-classes error; and
exactly one match succeeds with the killed count read from that entry's
scalar and exactly one live mutant per entry of its not-killed list, the
dedup counter having been reset first (the mutants carry counter values
0, 1, … regardless of the incoming counter). -/
theorem judy_extract_json_spec (g : Nat) (classes : List JudyClass)
    (target : String) :
    (classes = [] → judy_extract_json g classes target = .error .emptyReport) ∧
    (classes ≠ [] → classes.filter (fun a => a.name == target) = [] →
      judy_extract_json g classes target = .error (.missingClass target)) ∧
    (∀ c1 c2 rest, classes.filter (fun a => a.name == target) = c1 :: c2 :: rest →
      judy_extract_json g classes target = .error (.multipleClass target)) ∧
    (∀ c, classes.filter (fun a => a.name == target) = [c] →
      judy_extract_json g classes target =
        .ok (c.mutantsKilledCount, judyMutantsFromDicts 0 c.notKilledMutant) ∧
      (judyMutantsFromDicts 0 c.notKilledMutant).length =
        c.notKilledMutant.length ∧
      (judyMutantsFromDicts 0 c.notKilledMutant).map JudyMutant.counterVal =
        List.range c.notKilledMutant.length ∧
      judy_extract_json g classes target = judy_extract_json 0 classes target) := by
  rcases classes with _ | ⟨a, as⟩
  · refine ⟨fun _ => rfl, fun h _ => absurd rfl h, ?_, ?_⟩
    · intro c1 c2 rest h
      simp at h
    · intro c h
      simp at h
  · refine ⟨fun h => by simp at h, ?_, ?_, ?_⟩
    · intro _ hfil
      unfold judy_extract_json
      rw [hfil]
      rfl
    · intro c1 c2 rest hfil
      unfold judy_extract_json
      rw [hfil]
      rfl
    · intro c hfil
      unfold judy_extract_json
      rw [hfil]
      exact ⟨rfl, judyMutantsFromDicts_length 0 _,
        by rw [judyMutantsFromDicts_counters, List.range_eq_range'],
        rfl⟩

/-- Witness for C4 at concrete documents: the empty-report, class-missing,
multiple-classes and success branches, the last starting its counters at 0
although the incoming counter is 5. -/
theorem judy_extract_json_spec_witness :
    judy_extract_json 5 [] "C" = .error .emptyReport ∧
    judy_extract_json 5 [⟨"D", 3, []⟩] "C" = .error (.missingClass "C") ∧
    judy_extract_json 5 [⟨"C", 3, []⟩, ⟨"C", 4, []⟩] "C" =
      .error (.multipleClass "C") ∧
    judy_extract_json 5 [⟨"C", 3, [8, 9]⟩] "C" =
      .ok (3, judyMutantsFromDicts 0 [8, 9]) ∧
    (judyMutantsFromDicts 0 [8, 9]).map JudyMutant.counterVal = List.range 2 := by
  refine ⟨(judy_extract_json_spec 5 [] "C").1 rfl,
    (judy_extract_json_spec 5 [⟨"D", 3, []⟩] "C").2.1 (by decide) (by decide),
    (judy_extract_json_spec 5 [⟨"C", 3, []⟩, ⟨"C", 4, []⟩] "C").2.2.1
      ⟨"C", 3, []⟩ ⟨"C", 4, []⟩ [] (by decide),
    ((judy_extract_json_spec 5 [⟨"C", 3, [8, 9]⟩] "C").2.2.2
      ⟨"C", 3, [8, 9]⟩ (by decide)).1,
    ?_⟩
  have h := ((judy_extract_json_spec 5 [⟨"C", 3, [8, 9]⟩] "C").2.2.2
    ⟨"C", 3, [8, 9]⟩ (by decide)).2.2.1
  simpa using h

end Reports

namespace Reports

theorem jumbleMutantsFromTuples_length (n : Nat)
    (caps : List (List Char × List Char × List Char)) :
    (jumbleMutantsFromTuples n caps).length = caps.length := by
  induction caps generalizing n with
  | nil => rfl
  | cons c cs ih =>
    rcases c with ⟨f, ln, m⟩
    simp [jumbleMutantsFromTuples, ih]

/-- Claim C5: for a Jumble log whose score line carries no error
annotation and whose class, start and end markers are all found, with the
bounded region between the start marker's end and the end marker's start
containing the fail-pattern matches `caps` and leaving `killedText` after
their removal, extraction succeeds with exactly one live mutant per match,
the killed count equal to the number of non-whitespace characters of the
remaining text, and the constructed live-mutant count equal to the derived
count (the postcondition assert passes). -/
theorem jumble_extract_spec (content cls : List Char) (i0 i1 ps ns pj ne : Nat)
    (killedText : List Char) (caps : List (List Char × List Char × List Char))
    (hcls : searchPos matchMutatingAt content = some (i0, cls))
    (hscore : searchPos matchScoreAt content = some (i1, none))
    (hstart : searchPos matchStartAt content = some (ps, ns))
    (hend : searchPos matchEndAt (content.drop (ps + ns)) = some (pj, ne))
    (hscan : scanFails ((content.drop (ps + ns)).take pj).length
        ((content.drop (ps + ns)).take pj) = (killedText, caps)) :
    jumble_extract content =
      .ok ⟨cls, (killedText.filter (fun c => !(isPyWS c))).length,
        jumbleMutantsFromTuples 0 caps⟩ ∧
    (jumbleMutantsFromTuples 0 caps).length = caps.length := by
  have hlen : (jumbleMutantsFromTuples 0 caps).length = caps.length :=
    jumbleMutantsFromTuples_length 0 caps
  refine ⟨?_, hlen⟩
  simp only [jumble_extract, hcls, hscore, hstart, hend, hscan, hlen]
  simp

end Reports

namespace Reports

/-- Witness for C5 at a concrete log with one fail line inside the bounded
region and one marker character left over: one live mutant, killed count
1. -/
theorem jumble_extract_spec_witness :
    jumble_extract ("Mutating A\nMutation points = 1, unit test time limit 1.0s\nM FAIL: A:1: m\n.\nJumbling took 1.0s\nScore: 0%".toList) =
      .ok ⟨"A".toList, ("\n\n.\n".toList.filter (fun c => !(isPyWS c))).length,
        jumbleMutantsFromTuples 0 [("A".toList, "1".toList, "m".toList)]⟩ ∧
    (jumbleMutantsFromTuples 0 [("A".toList, "1".toList, "m".toList)]).length =
      [("A".toList, "1".toList, "m".toList)].length :=
  jumble_extract_spec
    ("Mutating A\nMutation points = 1, unit test time limit 1.0s\nM FAIL: A:1: m\n.\nJumbling took 1.0s\nScore: 0%".toList)
    ("A".toList) 0 94 11 46 18 18 ("\n\n.\n".toList)
    [("A".toList, "1".toList, "m".toList)]
    (by decide) (by decide) (by decide) (by decide) (by decide)

end Reports

namespace Reports

theorem majorMutantsFromRows_map_class (n : Nat)
    (joined : List (MajorRow × Option String)) :
    (majorMutantsFromRows n joined).map (fun m => majorClassOf m.row.signature) =
      joined.map (fun p => majorClassOf p.1.signature) := by
  induction joined generalizing n with
  | nil => rfl
  | cons p ps ih =>
    rcases p with ⟨r, stat⟩
    simp [majorMutantsFromRows, ih]

theorem major_extract_unfold (kt : List (Int × String)) (rows : List MajorRow) :
    major_extract kt rows =
      (if 1 < ((rows.map (fun r => majorClassOf r.signature)).dedup).length then
        .error .multipleClasses
      else
        match (rows.map (fun r => majorClassOf r.signature)).dedup with
        | [] => .error .emptyClassSet
        | c :: _ =>
          .ok ⟨c,
            (majorMutantsFromRows 0 (rows.map (fun r => (r, lookupStatus
              (if kt.isEmpty then
                (List.range rows.length).map (fun i => ((i : Int), "LIVE"))
              else kt) r.mutantNo)))).filter (fun m => m.status != some "LIVE"),
            (majorMutantsFromRows 0 (rows.map (fun r => (r, lookupStatus
              (if kt.isEmpty then
                (List.range rows.length).map (fun i => ((i : Int), "LIVE"))
              else kt) r.mutantNo)))).filter (fun m => m.status == some "LIVE")⟩) := by
  unfold major_extract
  dsimp only
  rw [majorMutantsFromRows_map_class, List.map_map]
  rfl

/-- Claim C6, evaluation at the failing input: an empty kill table and one
well-formed mutation-table row whose mutant number is 1 (the usual 1-based
numbering).  The synthesized all-LIVE table is indexed 0..M-1, so the left
join gives the row no status and the extractor buckets its mutant as
killed: the result is 1 killed and 0 live mutants, not the 1 live and 0
killed that the claim (and the code's own `empty kill csv -> all mutants
are live` comment) states. -/
theorem major_empty_kill_one_based_eval :
    major_extract [] [⟨1, "ROR", "a", "b", "Foo@bar()", 5, "d"⟩] =
      .ok ⟨"Foo", [⟨0, ⟨1, "ROR", "a", "b", "Foo@bar()", 5, "d"⟩, none⟩], []⟩ ∧
    (major_extract [] [⟨1, "ROR", "a", "b", "Foo@bar()", 5, "d"⟩]).toOption.map
      (fun r => (r.killed_mutants.length, r.live_mutants.length)) =
        some (1, 0) := by
  refine ⟨by decide, by decide⟩

end Reports

namespace Reports

theorem dedup_const {α : Type} [DecidableEq α] (c : α) (l : List α)
    (hne : l ≠ []) (h : ∀ x ∈ l, x = c) : l.dedup = [c] := by
  induction l with
  | nil => exact absurd rfl hne
  | cons a as ih =>
    have ha : a = c := h a (by simp)
    rcases as with _ | ⟨b, bs⟩
    · simp [ha]
    · have hmem : a ∈ b :: bs := by
        have hb : b = c := h b (by simp)
        simp [ha, hb]
      rw [List.dedup_cons_of_mem hmem]
      exact ih (by simp) (fun x hx => h x (List.mem_cons_of_mem a hx))

theorem pitScan_ok_tags (es : List XmlElement)
    (x : List PitMutant × List PitMutant × List String)
    (h : pitScan es = .ok x) : ∀ e ∈ es, e.tag = "mutation" := by
  induction es generalizing x with
  | nil => simp
  | cons e es ih =>
    by_cases he : e.tag = "mutation"
    · intro a ha
      rcases List.mem_cons.mp ha with rfl | ha
      · exact he
      · rcases hrec : pitScan es with err | y
        · rw [pitScan, if_neg (by simp [he]), hrec] at h
          simp at h
        · exact ih y hrec a ha
    · rw [pitScan, if_pos he] at h
      simp at h

theorem pitScan_eq (es : List XmlElement) (h : ∀ e ∈ es, e.tag = "mutation") :
    pitScan es = .ok
      ((es.filter (fun e => e.detected)).map
        (fun e => (⟨e.detected, e.mutatedClass⟩ : PitMutant)),
       (es.filter (fun e => !e.detected)).map
        (fun e => (⟨e.detected, e.mutatedClass⟩ : PitMutant)),
       es.map XmlElement.mutatedClass) := by
  induction es with
  | nil => rfl
  | cons e es ih =>
    have he : e.tag = "mutation" := h e (by simp)
    rw [pitScan, if_neg (by simp [he]),
      ih (fun a ha => h a (List.mem_cons_of_mem e ha))]
    rcases hd : e.detected with _ | _ <;> simp [hd]

theorem pitScan_err_of_bad_tag (es : List XmlElement)
    (h : ∃ e ∈ es, e.tag ≠ "mutation") :
    ∃ t, pitScan es = .error (.wrongTag t) := by
  induction es with
  | nil => simp at h
  | cons e es ih =>
    by_cases he : e.tag = "mutation"
    · obtain ⟨x, hx, hxt⟩ := h
      rcases List.mem_cons.mp hx with rfl | hx
      · exact absurd he hxt
      · obtain ⟨t, ht⟩ := ih ⟨x, hx, hxt⟩
        rw [pitScan, if_neg (by simp [he]), ht]
        exact ⟨t, rfl⟩
    · rw [pitScan, if_pos he]
      exact ⟨e.tag, rfl⟩

end Reports

namespace Reports

theorem filter_bool_length_sum {α : Type} (p : α → Bool) (l : List α) :
    (l.filter p).length + (l.filter (fun a => !p a)).length = l.length := by
  induction l with
  | nil => rfl
  | cons a l ih =>
    rcases hp : p a with _ | _ <;> simp [List.filter_cons, hp, ← ih] <;> omega

theorem pit_extract_ok_shape (es : List XmlElement) (res : PitResult)
    (h : pit_extract es = .ok res) :
    (∀ e ∈ es, e.tag = "mutation") ∧
    res.killed_mutants = (es.filter (fun e => e.detected)).map
      (fun e => (⟨e.detected, e.mutatedClass⟩ : PitMutant)) ∧
    res.live_mutants = (es.filter (fun e => !e.detected)).map
      (fun e => (⟨e.detected, e.mutatedClass⟩ : PitMutant)) ∧
    es ≠ [] := by
  by_cases htags : ∀ e ∈ es, e.tag = "mutation"
  · have hpe := pitScan_eq es htags
    unfold pit_extract at h
    rw [hpe] at h
    dsimp only at h
    rcases hd : (es.map XmlElement.mutatedClass).dedup with _ | ⟨c, rest⟩
    · rw [hd] at h
      simp at h
    · rw [hd] at h
      by_cases hlen : 1 < (c :: rest).length
      · rw [if_pos hlen] at h
        simp at h
      · rw [if_neg hlen] at h
        have hres := Except.ok.inj h
        subst hres
        have hne : es ≠ [] := by
          intro he
          subst he
          simp at hd
        exact ⟨htags, rfl, rfl, hne⟩
  · push_neg at htags
    obtain ⟨t, ht⟩ := pitScan_err_of_bad_tag es htags
    unfold pit_extract at h
    rw [ht] at h
    simp at h

end Reports

namespace Reports

/-- Claim C8: for Major and Pit extractions, more than one distinct
inferred class (for Major the part of each signature before `@` and then
before `$`; for Pit each mutant's mutated-class value) fails with the
multiple-classes-mutated error, and with a single distinct value the
report's class under mutation is that value. -/
theorem single_class_constraint_spec :
    (∀ (kt : List (Int × String)) (rows : List MajorRow),
      1 < ((rows.map (fun r => majorClassOf r.signature)).dedup).length →
      major_extract kt rows = .error .multipleClasses) ∧
    (∀ (kt : List (Int × String)) (rows : List MajorRow) (cls : String),
      rows ≠ [] → (∀ r ∈ rows, majorClassOf r.signature = cls) →
      ∃ res, major_extract kt rows = .ok res ∧ res.class_under_mutation = cls) ∧
    (∀ es : List XmlElement, (∀ e ∈ es, e.tag = "mutation") →
      1 < ((es.map XmlElement.mutatedClass).dedup).length →
      pit_extract es = .error .multipleClasses) ∧
    (∀ (es : List XmlElement) (cls : String), es ≠ [] →
      (∀ e ∈ es, e.tag = "mutation") → (∀ e ∈ es, e.mutatedClass = cls) →
      ∃ res, pit_extract es = .ok res ∧ res.class_under_mutation = cls) := by
  refine ⟨?_, ?_, ?_, ?_⟩
  · intro kt rows h
    rw [major_extract_unfold, if_pos h]
  · intro kt rows cls hne hall
    have hd : ((rows.map (fun r => majorClassOf r.signature)).dedup) = [cls] := by
      refine dedup_const cls _ (by simpa using hne) ?_
      intro x hx
      obtain ⟨r, hr, rfl⟩ := List.mem_map.mp hx
      exact hall r hr
    rw [major_extract_unfold, hd]
    exact ⟨_, rfl, rfl⟩
  · intro es htags h
    unfold pit_extract
    rw [pitScan_eq es htags]
    dsimp only
    rw [if_pos h]
  · intro es cls hne htags hall
    have hd : ((es.map XmlElement.mutatedClass).dedup) = [cls] := by
      refine dedup_const cls _ (by simpa using hne) ?_
      intro x hx
      obtain ⟨e, he, rfl⟩ := List.mem_map.mp hx
      exact hall e he
    unfold pit_extract
    rw [pitScan_eq es htags]
    dsimp only
    rw [hd]
    exact ⟨_, rfl, rfl⟩

/-- Witness for C8 at concrete tables and documents: two distinct classes
fail for both formats, single-class inputs succeed and carry that class. -/
theorem single_class_constraint_spec_witness :
    major_extract [] [⟨1, "o", "f", "t", "A@x", 1, "d"⟩,
      ⟨2, "o", "f", "t", "B@y", 2, "d"⟩] = .error .multipleClasses ∧
    (∃ res, major_extract [(1, "LIVE")] [⟨1, "o", "f", "t", "A@x", 1, "d"⟩] =
      .ok res ∧ res.class_under_mutation = "A") ∧
    pit_extract [⟨"mutation", true, "A"⟩, ⟨"mutation", false, "B"⟩] =
      .error .multipleClasses ∧
    (∃ res, pit_extract [⟨"mutation", true, "A"⟩] = .ok res ∧
      res.class_under_mutation = "A") := by
  refine ⟨?_, ?_, ?_, ?_⟩
  · exact single_class_constraint_spec.1 []
      [⟨1, "o", "f", "t", "A@x", 1, "d"⟩, ⟨2, "o", "f", "t", "B@y", 2, "d"⟩]
      (by decide)
  · exact single_class_constraint_spec.2.1 [(1, "LIVE")]
      [⟨1, "o", "f", "t", "A@x", 1, "d"⟩] "A" (by decide) (by decide)
  · exact single_class_constraint_spec.2.2.1
      [⟨"mutation", true, "A"⟩, ⟨"mutation", false, "B"⟩] (by decide) (by decide)
  · exact single_class_constraint_spec.2.2.2 [⟨"mutation", true, "A"⟩] "A"
      (by decide) (by decide) (by decide)

/-- Claim C9: a Pit document with any root child whose tag is not
`mutation` fails with the wrong-tag error; and whenever extraction
succeeds, it has produced exactly one killed mutant per detected child and
one live mutant per non-detected child. -/
theorem pit_wrong_tag_and_counts :
    (∀ es : List XmlElement, (∃ e ∈ es, e.tag ≠ "mutation") →
      ∃ t, pit_extract es = .error (.wrongTag t)) ∧
    (∀ (es : List XmlElement) (res : PitResult), pit_extract es = .ok res →
      res.killed_mutants.length = (es.filter (fun e => e.detected)).length ∧
      res.live_mutants.length = (es.filter (fun e => !e.detected)).length) := by
  constructor
  · intro es h
    obtain ⟨t, ht⟩ := pitScan_err_of_bad_tag es h
    refine ⟨t, ?_⟩
    unfold pit_extract
    rw [ht]
  · intro es res h
    obtain ⟨_, hk, hl, _⟩ := pit_extract_ok_shape es res h
    rw [hk, hl]
    simp

/-- Witness for C9 at concrete documents: a stray `line` child fails, and
a two-child document yields one killed and one live mutant. -/
theorem pit_wrong_tag_and_counts_witness :
    (∃ t, pit_extract [⟨"mutation", true, "A"⟩, ⟨"line", false, "A"⟩] =
      .error (.wrongTag t)) ∧
    ((⟨"A", [⟨true, "A"⟩], [⟨false, "A"⟩]⟩ : PitResult).killed_mutants.length =
        ([⟨"mutation", true, "A"⟩, ⟨"mutation", false, "A"⟩].filter
          (fun e : XmlElement => e.detected)).length ∧
      (⟨"A", [⟨true, "A"⟩], [⟨false, "A"⟩]⟩ : PitResult).live_mutants.length =
        ([⟨"mutation", true, "A"⟩, ⟨"mutation", false, "A"⟩].filter
          (fun e : XmlElement => !e.detected)).length) := by
  constructor
  · exact pit_wrong_tag_and_counts.1 [⟨"mutation", true, "A"⟩, ⟨"line", false, "A"⟩]
      ⟨⟨"line", false, "A"⟩, by decide, by decide⟩
  · exact pit_wrong_tag_and_counts.2
      [⟨"mutation", true, "A"⟩, ⟨"mutation", false, "A"⟩]
      ⟨"A", [⟨true, "A"⟩], [⟨false, "A"⟩]⟩ (by decide)

/-- Claim C10: a Pit document whose root has no child elements fails (the
class derivation pops from an empty set, a `KeyError`), and no successful
Pit extraction has zero mutants. -/
theorem pit_empty_fails_and_no_empty_report :
    pit_extract [] = .error .emptyClassSet ∧
    (∀ (es : List XmlElement) (res : PitResult), pit_extract es = .ok res →
      0 < res.killed_mutants.length + res.live_mutants.length) := by
  constructor
  · rfl
  · intro es res h
    obtain ⟨_, hk, hl, hne⟩ := pit_extract_ok_shape es res h
    rw [hk, hl]
    simp only [List.length_map]
    rw [filter_bool_length_sum]
    exact List.length_pos.mpr hne

/-- Witness for C10: a one-child document extracts successfully with a
positive mutant count. -/
theorem pit_empty_fails_and_no_empty_report_witness :
    0 < (⟨"A", [⟨true, "A"⟩], []⟩ : PitResult).killed_mutants.length +
      (⟨"A", [⟨true, "A"⟩], []⟩ : PitResult).live_mutants.length :=
  pit_empty_fails_and_no_empty_report.2 [⟨"mutation", true, "A"⟩]
    ⟨"A", [⟨true, "A"⟩], []⟩ (by decide)

end Reports

namespace Reports

set_option maxRecDepth 40000

/-- Counterexample to C7 as stated: for artifact byte contents `[97]` and
`[98]` ("a" and "b"), the multi-artifact content hash is the digest of
`97, 10, 98` — the contents joined with a newline byte — which differs from
the digest of the plain concatenation `97, 98`. -/
theorem multi_hash_not_plain_concat_cex :
    multipleFilesHashString [[97], [98]] ≠ md5Hex ([97] ++ [98]) := by decide

/-- Claim C7 (amended): the multi-artifact content hash equals the digest
of the artifacts' raw bytes joined with a single newline byte between
consecutive artifacts, in the caller-specified argument order, and there
exist artifact contents for which swapping the argument order changes the
resulting hash. -/
theorem multi_hash_newline_join_order_matters :
    (∀ contents, multipleFilesHashString contents = md5Hex (newlineJoin contents)) ∧
    multipleFilesHashString [[97], [98]] ≠ multipleFilesHashString [[98], [97]] :=
  ⟨fun _ => rfl, by decide⟩

end Reports
